import Mathlib

/-!
Verification of the commission/bonus calculation engine of the
`compcalculator` repository (`src/app.py`).

The engine is a pure computation over a list of sale records.  We embed it
shallowly: categories are the strings used by the source, money amounts are
rationals, application counts are naturals, and the breakdown produced by the
`commission_calculator` view (lines 473-490 of `app.py`) is a record of all
the intermediate and final values the source computes.
-/

/-- The set `P_AND_C_CATEGORIES` from `app.py` (lines 31-40), as a list of
the same category strings. -/
def P_AND_C_CATEGORIES : List String :=
  ["auto", "homeowners", "renters", "plup", "pap", "other_fire", "bank", "business"]

/-- The set `FS_CATEGORIES` from `app.py` (line 41). -/
def FS_CATEGORIES : List String := ["life", "health"]

/-- The list `CATEGORY_LABELS` from `app.py` (lines 43-54): the closed
enumeration of valid categories paired with their display labels. -/
def CATEGORY_LABELS : List (String × String) :=
  [("auto", "Auto"), ("homeowners", "Homeowners"), ("renters", "Renters"),
   ("plup", "Personal Umbrella"), ("pap", "Personal Articles"),
   ("other_fire", "Other Fire"), ("life", "Life"), ("health", "Health"),
   ("bank", "Bank"), ("business", "Business")]

/-- A sale record, mirroring the fields of the `Sale` model (`app.py`
lines 80-91) that reach the engine.  Dates are opaque to the engine (the
caller does the month filtering), so days are plain naturals. -/
structure Sale where
  client_name : String
  date_sold : Nat
  date_effective : Nat
  category : String
  premium : ℚ
  fs_monthly_premium : Option ℚ
deriving DecidableEq

/-- The five-column bracket row built by `get_commission_rate`
(the dict keyed "1-19" / "20-29" / "30-39" / "40-49" / "50+"). -/
structure Brackets where
  t1_19 : ℚ
  t20_29 : ℚ
  t30_39 : ℚ
  t40_49 : ℚ
  t50p : ℚ
deriving DecidableEq

/-- The row-selection half of `get_commission_rate` (`app.py` lines 395-404):
the bracket dict chosen from `life_apps`. -/
def rate_brackets (life_apps : ℕ) : Brackets :=
  if life_apps ≥ 5 then ⟨7/100, 9/100, 10/100, 11/100, 12/100⟩
  else if life_apps = 4 then ⟨6/100, 8/100, 9/100, 10/100, 11/100⟩
  else if life_apps = 3 then ⟨5/100, 7/100, 8/100, 9/100, 10/100⟩
  else if life_apps = 2 then ⟨4/100, 6/100, 7/100, 8/100, 9/100⟩
  else ⟨2/100, 4/100, 5/100, 6/100, 7/100⟩

/-- The column-selection half of `get_commission_rate`
(`app.py` lines 406-416). -/
def select_bracket (p_c_apps : ℕ) (b : Brackets) : ℚ :=
  if p_c_apps ≥ 50 then b.t50p
  else if p_c_apps ≥ 40 then b.t40_49
  else if p_c_apps ≥ 30 then b.t30_39
  else if p_c_apps ≥ 20 then b.t20_29
  else if p_c_apps ≥ 1 then b.t1_19
  else 0

/-- `get_commission_rate` from `app.py` (lines 391-416). -/
def get_commission_rate (p_c_apps life_apps : ℕ) : ℚ :=
  if p_c_apps ≤ 0 then 0
  else select_bracket p_c_apps (rate_brackets life_apps)

/-- `fs_bonus` from `app.py` (lines 419-428). -/
def fs_bonus (fs_monthly_premium : ℚ) : ℚ :=
  if fs_monthly_premium ≥ 500 then 800
  else if fs_monthly_premium ≥ 400 then 600
  else if fs_monthly_premium ≥ 300 then 400
  else if fs_monthly_premium ≥ 200 then 200
  else 0

/-- `life_app_bonus` from `app.py` (lines 431-437).  The source computes
`(life_apps - 6) * 150.0` under the guard `life_apps > 6`; natural
subtraction agrees with the source there. -/
def life_app_bonus (life_apps : ℕ) : ℚ :=
  if life_apps < 6 then 0
  else
    let bonus : ℚ := 500
    if life_apps > 6 then bonus + ((life_apps - 6 : ℕ) : ℚ) * 150 else bonus

/-- `milestone_bonus` from `app.py` (lines 440-447). -/
def milestone_bonus (p_c_apps life_apps : ℕ) : ℚ :=
  if p_c_apps ≥ 30 ∧ life_apps ≥ 4 then 1000
  else if p_c_apps ≥ 25 ∧ life_apps ≥ 3 then 750
  else if p_c_apps ≥ 20 ∧ life_apps ≥ 2 then 500
  else 0

/-- `p_c_premium` (`app.py` line 473): sum of `premium` over records whose
category lies in `P_AND_C_CATEGORIES`. -/
def p_c_premium_of (sales : List Sale) : ℚ :=
  ((sales.filter fun s => s.category ∈ P_AND_C_CATEGORIES).map Sale.premium).sum

/-- `p_c_apps` (`app.py` line 474): count of records in the P&C group. -/
def p_c_apps_of (sales : List Sale) : ℕ :=
  sales.countP fun s => s.category ∈ P_AND_C_CATEGORIES

/-- `life_apps` (`app.py` line 475): count of records with category "life". -/
def life_apps_of (sales : List Sale) : ℕ :=
  sales.countP fun s => s.category = "life"

/-- `fs_monthly_total` (`app.py` lines 476-478): sum of
`fs_monthly_premium or 0` over records in the FS group.  Python's `x or 0`
maps `None` to `0` and is the numeric identity otherwise, i.e. `Option.getD`. -/
def fs_monthly_total_of (sales : List Sale) : ℚ :=
  ((sales.filter fun s => s.category ∈ FS_CATEGORIES).map
    fun s => s.fs_monthly_premium.getD 0).sum

/-- The compensation breakdown assembled by the `commission_calculator` view
(`app.py` lines 492-508): every intermediate and final figure it exposes. -/
structure Breakdown where
  p_c_premium : ℚ
  p_c_apps : ℕ
  life_apps : ℕ
  fs_monthly_total : ℚ
  commission_rate : ℚ
  commission_amount : ℚ
  commission_eligible : Bool
  fs_monthly_bonus : ℚ
  fs_high_bonus : ℚ
  life_bonus_amount : ℚ
  milestone_bonus_amount : ℚ
  total_bonus : ℚ
  total_compensation : ℚ
deriving DecidableEq

/-- The engine part of the `commission_calculator` view (`app.py`
lines 473-490): from the month-scoped record list to the breakdown. -/
def commission_calculator (sales : List Sale) : Breakdown :=
  let p_c_premium := p_c_premium_of sales
  let p_c_apps := p_c_apps_of sales
  let life_apps := life_apps_of sales
  let fs_monthly_total := fs_monthly_total_of sales
  let commission_rate := get_commission_rate p_c_apps life_apps
  let commission_amount := if p_c_premium ≥ 12000 then p_c_premium * commission_rate else 0
  let commission_eligible := decide (p_c_premium ≥ 12000)
  let fs_monthly_bonus := fs_bonus fs_monthly_total
  let fs_high_bonus : ℚ := if fs_monthly_total > 1000 then 1000 else 0
  let life_bonus_amount := life_app_bonus life_apps
  let milestone_bonus_amount := milestone_bonus p_c_apps life_apps
  let total_bonus := fs_monthly_bonus + fs_high_bonus + life_bonus_amount + milestone_bonus_amount
  let total_compensation := commission_amount + total_bonus
  { p_c_premium := p_c_premium
    p_c_apps := p_c_apps
    life_apps := life_apps
    fs_monthly_total := fs_monthly_total
    commission_rate := commission_rate
    commission_amount := commission_amount
    commission_eligible := commission_eligible
    fs_monthly_bonus := fs_monthly_bonus
    fs_high_bonus := fs_high_bonus
    life_bonus_amount := life_bonus_amount
    milestone_bonus_amount := milestone_bonus_amount
    total_bonus := total_bonus
    total_compensation := total_compensation }

/-- The spec's rate table (§4.1), rows A-E by life-apps tier, columns by
P&C-apps tier 1-19 / 20-29 / 30-39 / 40-49 / 50+.  This definition follows
the spec's words (a two-dimensional bracket table with row and column
selection), to be compared against `get_commission_rate` from the source. -/
def spec_rate_table (row col : ℕ) : ℚ :=
  if row = 0 then
    if col = 0 then 2/100 else if col = 1 then 4/100 else if col = 2 then 5/100
    else if col = 3 then 6/100 else 7/100
  else if row = 1 then
    if col = 0 then 4/100 else if col = 1 then 6/100 else if col = 2 then 7/100
    else if col = 3 then 8/100 else 9/100
  else if row = 2 then
    if col = 0 then 5/100 else if col = 1 then 7/100 else if col = 2 then 8/100
    else if col = 3 then 9/100 else 10/100
  else if row = 3 then
    if col = 0 then 6/100 else if col = 1 then 8/100 else if col = 2 then 9/100
    else if col = 3 then 10/100 else 11/100
  else
    if col = 0 then 7/100 else if col = 1 then 9/100 else if col = 2 then 10/100
    else if col = 3 then 11/100 else 12/100

/-- Spec row selection: life-apps `<2` row A, `2` row B, `3` row C, `4` row D,
`≥5` row E. -/
def spec_life_row (life_apps : ℕ) : ℕ :=
  if life_apps < 2 then 0
  else if life_apps = 2 then 1
  else if life_apps = 3 then 2
  else if life_apps = 4 then 3
  else 4

/-- Spec column selection for P&C apps `≥1`: tiers 1-19, 20-29, 30-39,
40-49, ≥50. -/
def spec_pc_col (p_c_apps : ℕ) : ℕ :=
  if p_c_apps ≥ 50 then 4
  else if p_c_apps ≥ 40 then 3
  else if p_c_apps ≥ 30 then 2
  else if p_c_apps ≥ 20 then 1
  else 0

/-- Spec rate lookup: `<1` P&C apps gives rate 0 regardless of life apps;
otherwise index the two-dimensional table. -/
def spec_commission_rate (p_c_apps life_apps : ℕ) : ℚ :=
  if p_c_apps < 1 then 0
  else spec_rate_table (spec_life_row life_apps) (spec_pc_col p_c_apps)

/-- Row offset of the rate table: each row of the table is the A row shifted
up by a constant number of percentage points (0, 2, 3, 4, 5 for rows A-E).
Used to reason about monotonicity of the table. -/
def rowAdd (r : ℕ) : ℕ :=
  if r = 0 then 0 else if r = 1 then 2 else if r = 2 then 3 else if r = 3 then 4 else 5

/-- Column values of the A row of the rate table, in percentage points
(2, 4, 5, 6, 7). -/
def colVal (c : ℕ) : ℕ :=
  if c = 0 then 2 else if c = 1 then 4 else if c = 2 then 5 else if c = 3 then 6 else 7

/-- The part of a record the engine can observe: its category, and the
premium when the category is in the P&C group or the monthly FS premium
otherwise.  Two record lists with permutation-equal images under this
projection are indistinguishable to the engine. -/
def sale_obs (s : Sale) : String × ℚ :=
  (s.category,
   if s.category ∈ P_AND_C_CATEGORIES then s.premium else s.fs_monthly_premium.getD 0)

/-- A sample P&C record with a small premium, used for concrete instances. -/
def auto_sale : Sale := ⟨"client a", 1, 2, "auto", 100, none⟩

/-- The same sale as `auto_sale` from the engine's point of view, but with a
different client, different dates, and a stray monthly-premium value. -/
def auto_sale_alt : Sale := ⟨"client e", 9, 10, "auto", 100, some 77⟩

/-- The same sale as `life_sale` from the engine's point of view, but with a
different client, different dates, and a different one-time premium. -/
def life_sale_alt : Sale := ⟨"client f", 11, 12, "life", 9999, some 250⟩

/-- A sample life record, used for concrete instances. -/
def life_sale : Sale := ⟨"client c", 5, 6, "life", 2000, some 250⟩

/-- A sample record whose category lies outside the closed enumeration of
`CATEGORY_LABELS`, used for concrete instances. -/
def unknown_sale : Sale := ⟨"client d", 7, 8, "boat", 5000, some 50⟩

example : get_commission_rate 8 0 = 2/100 := by
  norm_num [get_commission_rate, select_bracket, rate_brackets]
example : get_commission_rate 32 4 = 9/100 := by
  norm_num [get_commission_rate, select_bracket, rate_brackets]
example : get_commission_rate 0 7 = 0 := by
  norm_num [get_commission_rate]
example : fs_bonus 1200 = 800 := by norm_num [fs_bonus]
example : life_app_bonus 8 = 800 := by norm_num [life_app_bonus]
example : milestone_bonus 32 4 = 1000 := by norm_num [milestone_bonus]

set_option maxHeartbeats 1000000 in
/-- The source's rate function, rewritten as a lookup into the spec-style
two-dimensional table.  Shared by the bracket-table and monotonicity
theorems. -/
theorem rate_eq_table (p l : ℕ) :
    get_commission_rate p l =
      if p = 0 then 0 else spec_rate_table (spec_life_row l) (spec_pc_col p) := by
  rcases Nat.eq_zero_or_pos p with hp | hp
  · subst hp
    rfl
  · have hne : ¬ p ≤ 0 := by omega
    have hne1 : ¬ p = 0 := by omega
    unfold get_commission_rate
    rw [if_neg hne, if_neg hne1]
    unfold select_bracket rate_brackets spec_life_row spec_pc_col
    split_ifs <;> first | rfl | omega

set_option maxHeartbeats 1000000 in
/-- The spec table decomposes additively: entry (r, c) is
(rowAdd r + colVal c) / 100 percentage points, for in-range indices. -/
theorem spec_rate_table_decomp (r c : ℕ) :
    spec_rate_table r c = ((rowAdd r + colVal c : ℕ) : ℚ) / 100 := by
  unfold spec_rate_table rowAdd colVal
  split_ifs <;> first | omega | norm_num

/-- Row selection is monotone in the life-apps count. -/
theorem spec_life_row_mono {l l2 : ℕ} (h : l ≤ l2) :
    spec_life_row l ≤ spec_life_row l2 := by
  unfold spec_life_row
  split_ifs <;> omega

/-- Column selection is monotone in the P&C-apps count. -/
theorem spec_pc_col_mono {p p2 : ℕ} (h : p ≤ p2) :
    spec_pc_col p ≤ spec_pc_col p2 := by
  unfold spec_pc_col
  split_ifs <;> omega

/-- The row offsets are monotone. -/
theorem rowAdd_mono {r r2 : ℕ} (h : r ≤ r2) : rowAdd r ≤ rowAdd r2 := by
  unfold rowAdd
  split_ifs <;> omega

/-- The column values are monotone. -/
theorem colVal_mono {c c2 : ℕ} (h : c ≤ c2) : colVal c ≤ colVal c2 := by
  unfold colVal
  split_ifs <;> omega

/-- The spec table is monotone in both indices (within range). -/
theorem spec_rate_table_mono {r r2 c c2 : ℕ} (hr : r ≤ r2) (hc : c ≤ c2) :
    spec_rate_table r c ≤ spec_rate_table r2 c2 := by
  rw [spec_rate_table_decomp r c, spec_rate_table_decomp r2 c2]
  have hnat : rowAdd r + colVal c ≤ rowAdd r2 + colVal c2 :=
    Nat.add_le_add (rowAdd_mono hr) (colVal_mono hc)
  gcongr

/-- Every in-range entry of the spec table is non-negative. -/
theorem spec_rate_table_nonneg (r c : ℕ) : 0 ≤ spec_rate_table r c := by
  rw [spec_rate_table_decomp r c]
  positivity

/-- Claim C1: for every non-negative integer pair, the commission rate
returned by `get_commission_rate` equals the spec's two-dimensional bracket
table (row by life apps, column by P&C apps, `<1` P&C apps giving 0). -/
theorem claim_C1 (p_c_apps life_apps : ℕ) :
    get_commission_rate p_c_apps life_apps = spec_commission_rate p_c_apps life_apps := by
  rw [rate_eq_table]
  unfold spec_commission_rate
  rcases Nat.eq_zero_or_pos p_c_apps with hp | hp
  · subst hp
    norm_num
  · rw [if_neg (by omega), if_neg (by omega)]

/-- Claim C4: `milestone_bonus` is evaluated highest-requirement-first with
first match winning, and always returns exactly one of 0, 500, 750, 1000
(it never sums two milestone tiers). -/
theorem claim_C4 (p_c_apps life_apps : ℕ) :
    milestone_bonus p_c_apps life_apps =
      (if 30 ≤ p_c_apps ∧ 4 ≤ life_apps then 1000
       else if 25 ≤ p_c_apps ∧ 3 ≤ life_apps then 750
       else if 20 ≤ p_c_apps ∧ 2 ≤ life_apps then 500
       else 0) ∧
    (milestone_bonus p_c_apps life_apps = 0 ∨ milestone_bonus p_c_apps life_apps = 500 ∨
     milestone_bonus p_c_apps life_apps = 750 ∨ milestone_bonus p_c_apps life_apps = 1000) := by
  unfold milestone_bonus
  split_ifs <;> norm_num

/-- Claim C5: `life_app_bonus` is 0 below 6 life apps, exactly 500 at 6, and
500 + 150·(n-6) above 6. -/
theorem claim_C5 (n : ℕ) :
    (n < 6 → life_app_bonus n = 0) ∧ life_app_bonus 6 = 500 ∧
    (6 < n → life_app_bonus n = 500 + 150 * ((n : ℚ) - 6)) := by
  refine ⟨fun h => by simp [life_app_bonus, h], by norm_num [life_app_bonus], fun h => ?_⟩
  have h6 : ¬ n < 6 := by omega
  have hc : ((n - 6 : ℕ) : ℚ) = (n : ℚ) - 6 := by
    push_cast [Nat.cast_sub (by omega : 6 ≤ n)]
    ring
  simp only [life_app_bonus, h6, if_false, h, if_true, hc]
  ring

/-- Witness for claim C5 at the concrete input 8. -/
theorem claim_C5_witness : life_app_bonus 8 = 500 + 150 * ((8 : ℚ) - 6) :=
  (claim_C5 8).2.2 (by norm_num)


/-- Claim C6: `get_commission_rate` is monotonically non-decreasing in each
argument separately. -/
theorem claim_C6 :
    (∀ p p2 l : ℕ, p ≤ p2 →
      get_commission_rate p l ≤ get_commission_rate p2 l) ∧
    (∀ p l l2 : ℕ, l ≤ l2 →
      get_commission_rate p l ≤ get_commission_rate p l2) := by
  constructor
  · intro p p2 l h
    rw [rate_eq_table, rate_eq_table]
    rcases Nat.eq_zero_or_pos p with hp | hp
    · subst hp
      rcases Nat.eq_zero_or_pos p2 with hp2 | hp2
      · subst hp2
        norm_num
      · rw [if_pos rfl, if_neg (by omega)]
        exact spec_rate_table_nonneg _ _
    · rw [if_neg (by omega), if_neg (by omega)]
      exact spec_rate_table_mono le_rfl (spec_pc_col_mono h)
  · intro p l l2 h
    rw [rate_eq_table, rate_eq_table]
    rcases Nat.eq_zero_or_pos p with hp | hp
    · subst hp
      norm_num
    · rw [if_neg (by omega), if_neg (by omega)]
      exact spec_rate_table_mono (spec_life_row_mono h) le_rfl

/-- Witness for claim C6 at concrete inputs. -/
theorem claim_C6_witness :
    get_commission_rate 8 2 ≤ get_commission_rate 32 2 ∧
    get_commission_rate 8 2 ≤ get_commission_rate 8 5 :=
  ⟨claim_C6.1 8 32 2 (by norm_num), claim_C6.2 8 2 5 (by norm_num)⟩

/-- Claim C2: for every record set the engine pays `pc_premium * rate` and is
eligible exactly when `pc_premium ≥ 12000`, and otherwise pays 0 and is not
eligible; the looked-up rate is reported unchanged either way, so the rate can
be positive while the commission amount is 0. -/
theorem claim_C2 (sales : List Sale) :
    (commission_calculator sales).commission_amount =
      (if (commission_calculator sales).p_c_premium ≥ 12000 then
        (commission_calculator sales).p_c_premium * (commission_calculator sales).commission_rate
       else 0) ∧
    ((commission_calculator sales).commission_eligible = true ↔
      (commission_calculator sales).p_c_premium ≥ 12000) ∧
    (commission_calculator sales).commission_rate =
      get_commission_rate (commission_calculator sales).p_c_apps
        (commission_calculator sales).life_apps ∧
    ∃ l : List Sale, 0 < (commission_calculator l).commission_rate ∧
      (commission_calculator l).commission_amount = 0 := by
  refine ⟨rfl, by simp [commission_calculator], rfl, ⟨[auto_sale], ?_, ?_⟩⟩
  · have h2 : p_c_apps_of [auto_sale] = 1 := by decide
    have h3 : life_apps_of [auto_sale] = 0 := by decide
    show 0 < get_commission_rate (p_c_apps_of [auto_sale]) (life_apps_of [auto_sale])
    rw [h2, h3]
    norm_num [get_commission_rate, select_bracket, rate_brackets]
  · have h1 : p_c_premium_of [auto_sale] = 100 := by
      simp [p_c_premium_of, auto_sale, P_AND_C_CATEGORIES]
    show (if p_c_premium_of [auto_sale] ≥ 12000 then
        p_c_premium_of [auto_sale] *
          get_commission_rate (p_c_apps_of [auto_sale]) (life_apps_of [auto_sale])
      else 0) = 0
    rw [h1]
    norm_num

/-- Claim C3: `fs_bonus` is the highest-first step function of the monthly
total, the flat high bonus is 1000 exactly when the total exceeds 1000, and
the two stack additively inside the total bonus; at a total of 1200 the two
together contribute 800 + 1000 = 1800. -/
theorem claim_C3 :
    (∀ q : ℚ, 0 ≤ q →
      fs_bonus q =
        (if 500 ≤ q then 800 else if 400 ≤ q then 600 else if 300 ≤ q then 400
         else if 200 ≤ q then 200 else 0)) ∧
    (∀ sales : List Sale,
      (commission_calculator sales).fs_monthly_bonus =
        fs_bonus (commission_calculator sales).fs_monthly_total ∧
      (commission_calculator sales).fs_high_bonus =
        (if 1000 < (commission_calculator sales).fs_monthly_total then 1000 else 0) ∧
      (commission_calculator sales).total_bonus =
        (commission_calculator sales).fs_monthly_bonus +
          (commission_calculator sales).fs_high_bonus +
          (commission_calculator sales).life_bonus_amount +
          (commission_calculator sales).milestone_bonus_amount) ∧
    fs_bonus 1200 + (if (1000 : ℚ) < 1200 then 1000 else 0) = 1800 := by
  refine ⟨fun q hq => rfl, fun sales => ⟨rfl, rfl, rfl⟩, by norm_num [fs_bonus]⟩

/-- Witness for claim C3 at the concrete total 1200. -/
theorem claim_C3_witness :
    fs_bonus 1200 =
      (if (500 : ℚ) ≤ 1200 then 800 else if (400 : ℚ) ≤ 1200 then 600
       else if (300 : ℚ) ≤ 1200 then 400 else if (200 : ℚ) ≤ 1200 then 200 else 0) :=
  claim_C3.1 1200 (by norm_num)

/-- Claim C7: on the empty record set every output of the breakdown is zero
and the eligibility flag is false. -/
theorem claim_C7 :
    commission_calculator [] =
      { p_c_premium := 0, p_c_apps := 0, life_apps := 0, fs_monthly_total := 0,
        commission_rate := 0, commission_amount := 0, commission_eligible := false,
        fs_monthly_bonus := 0, fs_high_bonus := 0, life_bonus_amount := 0,
        milestone_bonus_amount := 0, total_bonus := 0, total_compensation := 0 } := by
  norm_num [commission_calculator, p_c_premium_of, p_c_apps_of, life_apps_of,
    fs_monthly_total_of, get_commission_rate, fs_bonus, life_app_bonus, milestone_bonus]

/-- Every P&C category string is a key of the category enumeration. -/
theorem pc_subset_labels : ∀ c ∈ P_AND_C_CATEGORIES, c ∈ CATEGORY_LABELS.map Prod.fst := by
  decide

/-- Every FS category string is a key of the category enumeration. -/
theorem fs_subset_labels : ∀ c ∈ FS_CATEGORIES, c ∈ CATEGORY_LABELS.map Prod.fst := by
  decide

/-- The two category groups are disjoint. -/
theorem pc_fs_disjoint : ∀ c ∈ P_AND_C_CATEGORIES, c ∉ FS_CATEGORIES := by
  decide

/-- "life" is a key of the category enumeration. -/
theorem life_in_labels : "life" ∈ CATEGORY_LABELS.map Prod.fst := by
  decide

/-- Claim C9: the category enumeration is partitioned by the two groups:
every category of `CATEGORY_LABELS` lies in exactly one of
`P_AND_C_CATEGORIES` and `FS_CATEGORIES`, the two sets are disjoint, and
their union covers exactly the enumeration. -/
theorem claim_C9 :
    (∀ c ∈ CATEGORY_LABELS.map Prod.fst,
      (c ∈ P_AND_C_CATEGORIES ∧ c ∉ FS_CATEGORIES) ∨
      (c ∈ FS_CATEGORIES ∧ c ∉ P_AND_C_CATEGORIES)) ∧
    (∀ c ∈ P_AND_C_CATEGORIES, c ∉ FS_CATEGORIES) ∧
    (∀ c ∈ P_AND_C_CATEGORIES, c ∈ CATEGORY_LABELS.map Prod.fst) ∧
    (∀ c ∈ FS_CATEGORIES, c ∈ CATEGORY_LABELS.map Prod.fst) := by
  decide

/-- Witness for claim C9 at the concrete category "auto". -/
theorem claim_C9_witness :
    ("auto" ∈ P_AND_C_CATEGORIES ∧ "auto" ∉ FS_CATEGORIES) ∨
    ("auto" ∈ FS_CATEGORIES ∧ "auto" ∉ P_AND_C_CATEGORIES) :=
  claim_C9.1 "auto" (by decide)

/-- Counterexample to claim C8 as stated: on a record set containing a
category outside the enumeration, the engine neither asserts nor errors — it
produces the ordinary breakdown in which the unknown record is silently
ignored, identical to the breakdown for the empty record set. -/
theorem claim_C8_counterexample :
    commission_calculator [unknown_sale] = commission_calculator [] := by
  have e1 : p_c_premium_of [unknown_sale] = p_c_premium_of [] := rfl
  have e2 : p_c_apps_of [unknown_sale] = p_c_apps_of [] := rfl
  have e3 : life_apps_of [unknown_sale] = life_apps_of [] := rfl
  have e4 : fs_monthly_total_of [unknown_sale] = fs_monthly_total_of [] := rfl
  simp only [commission_calculator, e1, e2, e3, e4]

/-- Claim C8 (amended): the engine has no defensive check: a record whose
category is outside the known enumeration is silently skipped — it belongs to
neither category group and contributes to no aggregate, so the breakdown
equals the one computed without that record.  (Category validation happens at
the data-entry boundary, `app.py` line 191, not in the engine.) -/
theorem claim_C8_amended (sales : List Sale) (r : Sale)
    (h : r.category ∉ CATEGORY_LABELS.map Prod.fst) :
    commission_calculator (r :: sales) = commission_calculator sales := by
  have hpc : r.category ∉ P_AND_C_CATEGORIES := fun hc => h (pc_subset_labels _ hc)
  have hfs : r.category ∉ FS_CATEGORIES := fun hc => h (fs_subset_labels _ hc)
  have hlife : r.category ≠ "life" := fun hc => h (hc ▸ life_in_labels)
  have e1 : p_c_premium_of (r :: sales) = p_c_premium_of sales := by
    simp [p_c_premium_of, List.filter_cons, hpc]
  have e2 : p_c_apps_of (r :: sales) = p_c_apps_of sales := by
    simp [p_c_apps_of, List.countP_cons, hpc]
  have e3 : life_apps_of (r :: sales) = life_apps_of sales := by
    simp [life_apps_of, List.countP_cons, hlife]
  have e4 : fs_monthly_total_of (r :: sales) = fs_monthly_total_of sales := by
    simp [fs_monthly_total_of, List.filter_cons, hfs]
  simp only [commission_calculator, e1, e2, e3, e4]

/-- Witness for the amended claim C8 at a concrete unknown-category record. -/
theorem claim_C8_amended_witness :
    commission_calculator [unknown_sale, auto_sale] = commission_calculator [auto_sale] :=
  claim_C8_amended [auto_sale] unknown_sale (by decide)

/-- The P&C premium total is a function of the records' observations. -/
theorem p_c_premium_obs (l : List Sale) :
    p_c_premium_of l =
      ((l.map sale_obs).map fun p => if p.1 ∈ P_AND_C_CATEGORIES then p.2 else 0).sum := by
  induction l with
  | nil => rfl
  | cons s t ih =>
    simp only [List.map_map] at ih ⊢
    by_cases h : s.category ∈ P_AND_C_CATEGORIES <;>
      simp [p_c_premium_of, sale_obs, List.filter_cons, h, ih] <;>
      simp_all [p_c_premium_of]

/-- The P&C application count is a function of the records' observations. -/
theorem p_c_apps_obs (l : List Sale) :
    p_c_apps_of l = (l.map sale_obs).countP fun p => p.1 ∈ P_AND_C_CATEGORIES := by
  rw [List.countP_map]
  rfl

/-- The life application count is a function of the records' observations. -/
theorem life_apps_obs (l : List Sale) :
    life_apps_of l = (l.map sale_obs).countP fun p => p.1 = "life" := by
  rw [List.countP_map]
  rfl

/-- The FS monthly total is a function of the records' observations. -/
theorem fs_monthly_total_obs (l : List Sale) :
    fs_monthly_total_of l =
      ((l.map sale_obs).map fun p => if p.1 ∈ FS_CATEGORIES then p.2 else 0).sum := by
  induction l with
  | nil => rfl
  | cons s t ih =>
    simp only [List.map_map] at ih ⊢
    by_cases h : s.category ∈ FS_CATEGORIES
    · have hpc : s.category ∉ P_AND_C_CATEGORIES := fun hc => pc_fs_disjoint _ hc h
      simp [fs_monthly_total_of, sale_obs, List.filter_cons, h, hpc, ih] <;>
        simp_all [fs_monthly_total_of]
    · simp [fs_monthly_total_of, sale_obs, List.filter_cons, h, ih] <;>
        simp_all [fs_monthly_total_of]

/-- Claim C10: the breakdown depends only on the multiset of observations
(category, premium for P&C records, monthly FS premium for FS records): two
in-scope record lists whose observation lists are permutations of one another
— differing in order, client names, dates, the one-time premium of FS
records, or the monthly premium of P&C records — get identical breakdowns. -/
theorem claim_C10 (l1 l2 : List Sale)
    (hs1 : ∀ s ∈ l1, s.category ∈ CATEGORY_LABELS.map Prod.fst)
    (hs2 : ∀ s ∈ l2, s.category ∈ CATEGORY_LABELS.map Prod.fst)
    (hperm : (l1.map sale_obs).Perm (l2.map sale_obs)) :
    commission_calculator l1 = commission_calculator l2 := by
  have e1 : p_c_premium_of l1 = p_c_premium_of l2 := by
    rw [p_c_premium_obs, p_c_premium_obs]
    exact (hperm.map _).sum_eq
  have e2 : p_c_apps_of l1 = p_c_apps_of l2 := by
    rw [p_c_apps_obs, p_c_apps_obs]
    exact hperm.countP_eq _
  have e3 : life_apps_of l1 = life_apps_of l2 := by
    rw [life_apps_obs, life_apps_obs]
    exact hperm.countP_eq _
  have e4 : fs_monthly_total_of l1 = fs_monthly_total_of l2 := by
    rw [fs_monthly_total_obs, fs_monthly_total_obs]
    exact (hperm.map _).sum_eq
  simp only [commission_calculator, e1, e2, e3, e4]

/-- Witness for claim C10: reordering the records, renaming the client,
moving the dates, changing the one-time premium of the life record and adding
a stray monthly premium on the auto record leaves the breakdown unchanged. -/
theorem claim_C10_witness :
    commission_calculator [auto_sale, life_sale] =
      commission_calculator [life_sale_alt, auto_sale_alt] :=
  claim_C10 [auto_sale, life_sale] [life_sale_alt, auto_sale_alt]
    (by decide) (by decide) (by decide)
